import Mathlib

/-!
Shallow embedding of the Prompt-Engineering-Challenges client core:
the analysis pipeline (`stitchImages`, `analyzeImages`), the progress
store effects in `App` (initialization, loading, persistence), and the
auth service (`signup`, `login`, `getCurrentUser`).

JavaScript numbers are modelled as `ℚ` (no arithmetic beyond comparisons
occurs), JSON values as an inductive `JsValue`, records as association
lists with JS assignment semantics, and thrown exceptions as explicit
`Except` error channels.
-/

namespace PEC

/-- A JSON value, the result of a successful `JSON.parse`. Object keys are
assumed distinct (as `JSON.parse` deduplicates, last key wins). -/
inductive JsValue where
  | jnull : JsValue
  | jbool : Bool → JsValue
  | jnum : ℚ → JsValue
  | jstr : String → JsValue
  | jarr : List JsValue → JsValue
  | jobj : List (String × JsValue) → JsValue

/-- JS truthiness test restricted to JSON.parse results: `null`, `false`,
`0` and `""` are falsy; objects and arrays are always truthy. -/
def JsValue.isFalsy : JsValue → Bool
  | .jnull => true
  | .jbool b => !b
  | .jnum q => q == 0
  | .jstr s => s == ""
  | .jarr _ => false
  | .jobj _ => false

/-- JS property access `v[k]`: `none` models `undefined` (non-objects have
no own properties of interest here). -/
def JsValue.getField : JsValue → String → Option JsValue
  | .jobj fs, k => (fs.find? (fun p => p.1 == k)).map (fun p => p.2)
  | _, _ => none

/-- A value thrown by a dependency: either an `Error` instance carrying a
message, or any non-`Error` value (`throw "x"`, `throw 42`, ...). -/
inductive Thrown where
  | errObj : String → Thrown
  | nonErr : Thrown
deriving DecidableEq, Repr

/-- The `AnalysisResult` as the code actually returns it: `JSON.parse`
output cast without conversion, so `feedback` elements are arbitrary
JSON values. -/
structure AnalysisResult where
  similarityScore : ℚ
  feedback : List JsValue

/-- The schema check in `analyzeImages`:
`if (!result || typeof result.similarityScore !== 'number' ||
!Array.isArray(result.feedback)) throw new Error(...)`. -/
def validateAnalysis (v : JsValue) : Except String AnalysisResult :=
  if v.isFalsy then .error "Model returned malformed analysis data."
  else
    match v.getField "similarityScore" with
    | some (.jnum q) =>
      match v.getField "feedback" with
      | some (.jarr xs) => .ok ⟨q, xs⟩
      | _ => .error "Model returned malformed analysis data."
    | _ => .error "Model returned malformed analysis data."

/-- The catch block of `analyzeImages`: an `Error` is re-thrown with its
message wrapped in a contextual prefix, any other thrown value is replaced
by a fixed message. -/
def wrapAnalysisError : Thrown → String
  | .errObj m => "Analysis failed: " ++ m
  | .nonErr => "An unknown error occurred during analysis."

/-- Outcome of the oracle call (`gemini.models.generateContent` followed by
`response.text.trim()` and `JSON.parse`): transport failure, parse failure,
or a parsed JSON value. -/
inductive FetchOutcome where
  | fail : Thrown → FetchOutcome
  | parseFail : Thrown → FetchOutcome
  | parsed : JsValue → FetchOutcome

/-- Model of `analyzeImages`, over the outcomes of its two effectful
dependencies: the stitch step (which may throw) and the oracle fetch/parse.
Every exception inside the `try` is caught and re-thrown via
`wrapAnalysisError`; nothing is retried. -/
def analyzeImages (stitch : Except Thrown Unit) (fetch : FetchOutcome) :
    Except String AnalysisResult :=
  match stitch with
  | .error t => .error (wrapAnalysisError t)
  | .ok _ =>
    match fetch with
    | .fail t => .error (wrapAnalysisError t)
    | .parseFail t => .error (wrapAnalysisError t)
    | .parsed v =>
      match validateAnalysis v with
      | .error m => .error (wrapAnalysisError (.errObj m))
      | .ok r => .ok r

/-- JS `s.startsWith(p)`, as a character-list prefix test. -/
def jsStartsWith (s pre : String) : Bool :=
  pre.toList.isPrefixOf s.toList

/-- Pixel dimensions of a decoded image. -/
structure ImageDims where
  width : Nat
  height : Nat
deriving DecidableEq, Repr

/-- Environment of one `stitchImages` execution: whether
`canvas.getContext('2d')` returns a context, the outcome of the external
`getLocalImageAsBlobUrl` fetch, and the outcomes of the two image loads. -/
structure StitchEnv where
  ctxAvailable : Bool
  blobFetch : Except Thrown String
  targetLoad : Except Unit ImageDims
  generatedLoad : Except Unit ImageDims

/-- The composite produced by `stitchImages`: canvas dimensions and the
positions at which `drawImage` places the target and generated images.
The final `canvas.toDataURL('image/jpeg')` encoding of this composite is
abstracted away. -/
structure StitchResult where
  canvasWidth : Nat
  canvasHeight : Nat
  targetPos : Nat × Nat
  generatedPos : Nat × Nat
deriving DecidableEq, Repr

/-- Model of `stitchImages`, step for step. The `Bool` component records
whether `URL.revokeObjectURL(blobUrl)` was invoked during the execution.
When both image loads fail, `Promise.all` rejects with one of the two
errors; the model picks the target's (the claims do not depend on which).
-/
def stitchImages (targetImageUrl : String) (env : StitchEnv) :
    Bool × Except Thrown StitchResult :=
  if !env.ctxAvailable then
    (false, .error (.errObj "Could not get canvas context"))
  else
    match env.blobFetch with
    | .error t => (false, .error t)
    | .ok blobUrl =>
      match env.targetLoad with
      | .error _ =>
        (false, .error (.errObj ("Failed to load target image: " ++ targetImageUrl)))
      | .ok img1 =>
        match env.generatedLoad with
        | .error _ =>
          (false, .error (.errObj "Failed to load generated image from base64"))
        | .ok img2 =>
          (jsStartsWith blobUrl "blob:",
           .ok { canvasWidth := img1.width + img2.width,
                 canvasHeight := max img1.height img2.height,
                 targetPos := (0, 0),
                 generatedPos := (img1.width, 0) })

/-- The `ChallengeStatus` enum from `types.ts`, as used by `App`. -/
inductive ChallengeStatus where
  | LOCKED : ChallengeStatus
  | UNLOCKED : ChallengeStatus
  | COMPLETED : ChallengeStatus
deriving DecidableEq, Repr

/-- Per-challenge progress record. -/
structure ChallengeProgress where
  status : ChallengeStatus
  streak : Nat
  previousSimilarityScore : ℚ
deriving DecidableEq, Repr

/-- A catalog entry (`Challenge` from `types.ts`); only `id` matters to the
progress effects, `imageUrl` feeds `stitchImages`. -/
structure Challenge where
  id : Nat
  name : String
  description : String
  imageUrl : String
deriving DecidableEq, Repr

/-- JS record assignment `m[k] = v`: overwrite in place if the key exists,
otherwise append. -/
def recordSet {κ α : Type} [BEq κ] (m : List (κ × α)) (k : κ) (v : α) :
    List (κ × α) :=
  if m.any (fun p => p.1 == k) then
    m.map (fun p => if p.1 == k then (k, v) else p)
  else m ++ [(k, v)]

/-- JS record read `m[k]` (`none` models `undefined`). -/
def recordGet {κ α : Type} [BEq κ] (m : List (κ × α)) (k : κ) : Option α :=
  (m.find? (fun p => p.1 == k)).map (fun p => p.2)

/-- The `Record<number, ChallengeProgress>` held in the
`challengeProgress` state. -/
abbrev ProgressMap := List (Nat × ChallengeProgress)

/-- The record literal assigned per catalog entry during initialization:
`{ status: index === 0 ? UNLOCKED : LOCKED, streak: 0,
previousSimilarityScore: 0 }`. -/
def defaultProgressAt (index : Nat) : ChallengeProgress :=
  { status := if index = 0 then .UNLOCKED else .LOCKED,
    streak := 0, previousSimilarityScore := 0 }

/-- The default-progress initializer in `App`'s loading effect:
`CHALLENGES.forEach((challenge, index) => { initialProgress[challenge.id] =
... })`. -/
def initializeDefaults (catalog : List Challenge) : ProgressMap :=
  catalog.enum.foldl
    (fun m p => recordSet m p.2.id (defaultProgressAt p.1)) []

/-- The progress-loading effect in `App`: read the storage cell (`none`
models `localStorage.getItem` returning `null`; the empty string is falsy
and takes the defaults branch of `if (savedProgress)`), parse it, and on a
parse exception fall back to defaults inside the `catch`. The parse of the
raw string is supplied by the environment. -/
def loadProgress (catalog : List Challenge) (saved : Option String)
    (parse : String → Except Thrown ProgressMap) : ProgressMap :=
  match saved with
  | none => initializeDefaults catalog
  | some s =>
    if s = "" then initializeDefaults catalog
    else
      match parse s with
      | .error _ => initializeDefaults catalog
      | .ok m => m

/-- The persistence effect in `App`: `if (Object.keys(challengeProgress)
.length > 0) localStorage.setItem(...)`. `some m` models a write of `m` to
durable storage, `none` models no write. -/
def persistProgress (m : ProgressMap) : Option ProgressMap :=
  if 0 < m.length then some m else none

/-- The `User` type from the auth service. -/
structure User where
  username : String
deriving DecidableEq, Repr

/-- The parsed `pec_users` record: username to password. -/
abbrev Users := List (String × String)

/-- The `pec_current_user` storage cell: absent, unparseable, or a user. -/
inductive StoredUser where
  | absent : StoredUser
  | corrupt : StoredUser
  | value : User → StoredUser
deriving DecidableEq, Repr

/-- Auth service state: the `pec_users` record, the module-level
`currentUser` variable, and the `pec_current_user` storage cell. -/
structure AuthState where
  users : Users
  currentUser : Option User
  storedCurrentUser : StoredUser
deriving DecidableEq, Repr

/-- Model of `setCurrentUser`: update the module variable and mirror it
into (or remove it from) storage. -/
def setCurrentUser (st : AuthState) (u : Option User) : AuthState :=
  match u with
  | some user => { st with currentUser := some user,
                           storedCurrentUser := .value user }
  | none => { st with currentUser := none, storedCurrentUser := .absent }

/-- Model of `signup`: `if (users[username]) throw` — JS truthiness, so an existing
entry guards only when its stored password is nonempty; then
`users[username] = password; setUsers(users); setCurrentUser({username})`.
Returns the post-state and the result (`Except.error` models the throw;
on the throw path the input state is returned unchanged). -/
def signup (st : AuthState) (username password : String) :
    AuthState × Except String User :=
  let proceed : AuthState × Except String User :=
    let users' := recordSet st.users username password
    (setCurrentUser { st with users := users' } (some ⟨username⟩),
     .ok ⟨username⟩)
  match recordGet st.users username with
  | some stored =>
    if stored ≠ "" then (st, .error "Username already exists.")
    else proceed
  | none => proceed

/-- Model of `login`: `if (!users[username]) throw 'User not found...'` — falsy for
an absent entry and for an empty-string password; then
`if (users[username] !== password) throw 'Incorrect password.'`; on
success `setCurrentUser({username})`. -/
def login (st : AuthState) (username password : String) :
    AuthState × Except String User :=
  match recordGet st.users username with
  | none => (st, .error "User not found. Please sign up first.")
  | some stored =>
    if stored = "" then (st, .error "User not found. Please sign up first.")
    else if stored ≠ password then (st, .error "Incorrect password.")
    else (setCurrentUser st (some ⟨username⟩), .ok ⟨username⟩)

/-- Model of `getCurrentUser`: the module variable if set, otherwise the parsed
storage cell (`null` on absence or parse failure). The read-through cache
write does not affect the returned value and is not modelled. -/
def getCurrentUser (st : AuthState) : Option User :=
  match st.currentUser with
  | some u => some u
  | none =>
    match st.storedCurrentUser with
    | .value u => some u
    | _ => none

end PEC

/-! ## Helper lemmas -/

namespace PEC

/-- Shape of a successful schema check: the parsed value is truthy, its
`similarityScore` field is a JSON number and its `feedback` field is a
JSON array, both carried verbatim into the result. -/
theorem validateAnalysis_ok {v : JsValue} {r : AnalysisResult}
    (h : validateAnalysis v = .ok r) :
    v.isFalsy = false ∧
    v.getField "similarityScore" = some (.jnum r.similarityScore) ∧
    v.getField "feedback" = some (.jarr r.feedback) := by
  unfold validateAnalysis at h
  split at h
  · simp at h
  · next hfalsy =>
    split at h
    · next q hq =>
      split at h
      · next xs hx =>
        obtain rfl : AnalysisResult.mk q xs = r := by injection h
        exact ⟨by simpa using hfalsy, hq, hx⟩
      · simp at h
    · simp at h

/-- Assigning a fresh key to a JS record appends the binding. -/
theorem recordSet_fresh {κ α : Type} [BEq κ] (m : List (κ × α)) (k : κ) (v : α)
    (h : m.any (fun p => p.1 == k) = false) :
    recordSet m k v = m ++ [(k, v)] := by
  simp [recordSet, h]

/-- Unfolding of the initialization fold: when the catalog ids are distinct
and fresh for the accumulator, the fold appends one default binding per
catalog entry, in catalog order. -/
theorem initFold (catalog : List Challenge) (n : Nat) (m0 : ProgressMap)
    (hdisj : ∀ c ∈ catalog, m0.any (fun p => p.1 == c.id) = false)
    (hnodup : (catalog.map Challenge.id).Nodup) :
    (catalog.enumFrom n).foldl
      (fun m p => recordSet m p.2.id (defaultProgressAt p.1)) m0
    = m0 ++ (catalog.enumFrom n).map
        (fun p => (p.2.id, defaultProgressAt p.1)) := by
  induction catalog generalizing n m0 with
  | nil => simp
  | cons c cs ih =>
    rw [List.enumFrom_cons]
    simp only [List.foldl_cons, List.map_cons]
    rw [recordSet_fresh _ _ _ (hdisj c (by simp))]
    rw [List.map_cons, List.nodup_cons] at hnodup
    rw [ih (n+1) _ ?_ hnodup.2]
    · rw [List.append_assoc]
      rfl
    · intro c' hc'
      rw [List.any_append]
      have h1 : m0.any (fun p => p.1 == c'.id) = false :=
        hdisj c' (List.mem_cons_of_mem _ hc')
      have h2 : (c.id == c'.id) = false := by
        rw [beq_eq_false_iff_ne]
        intro hEq
        exact hnodup.1 (hEq ▸ List.mem_map_of_mem Challenge.id hc')
      simp [h1, h2]

end PEC

/-! ## Claim theorems -/

namespace PEC

/-- C1, counterexample: a response whose `feedback` is an array of four
numbers — neither strings nor within the claimed length bound of 3 — is
accepted by `analyzeImages` and returned as a full `AnalysisResult`, so
the claimed strict schema (strings, length at most 3) is not enforced. -/
theorem analyzeImages_feedback_unvalidated :
    analyzeImages (.ok ())
      (.parsed (.jobj [("similarityScore", .jnum 50),
        ("feedback", .jarr [.jnum 1, .jnum 2, .jnum 3, .jnum 4])]))
      = .ok ⟨50, [.jnum 1, .jnum 2, .jnum 3, .jnum 4]⟩ ∧
    3 < ([JsValue.jnum 1, .jnum 2, .jnum 3, .jnum 4]).length :=
  ⟨rfl, by decide⟩

/-- C1, amended: `analyzeImages` returns an `AnalysisResult` only if the
oracle response parses as a truthy value whose `similarityScore` field is
a number and whose `feedback` field is an array; the element types and
length of `feedback` are not checked. Any response failing those two
checks, unparseable, or any earlier dependency failure, makes the whole
call fail — no partially accepted result is returned. -/
theorem analyzeImages_ok_only_validated (stitch : Except Thrown Unit)
    (fetch : FetchOutcome) (r : AnalysisResult)
    (h : analyzeImages stitch fetch = .ok r) :
    stitch = .ok () ∧ ∃ v, fetch = .parsed v ∧ v.isFalsy = false ∧
      v.getField "similarityScore" = some (.jnum r.similarityScore) ∧
      v.getField "feedback" = some (.jarr r.feedback) := by
  match stitch with
  | .error t => simp [analyzeImages] at h
  | .ok () =>
    match fetch with
    | .fail t => simp [analyzeImages] at h
    | .parseFail t => simp [analyzeImages] at h
    | .parsed v =>
      refine ⟨rfl, v, rfl, ?_⟩
      simp only [analyzeImages] at h
      cases hv : validateAnalysis v with
      | error m => rw [hv] at h; simp at h
      | ok r' =>
        rw [hv] at h
        obtain rfl : r' = r := by injection h
        exact validateAnalysis_ok hv

/-- C1, witness: a well-typed response is accepted, instantiating the
amended theorem at a concrete input. -/
theorem analyzeImages_ok_only_validated_witness :
    (Except.ok () : Except Thrown Unit) = .ok () ∧
    ∃ v, FetchOutcome.parsed
        (.jobj [("similarityScore", .jnum 80), ("feedback", .jarr [.jstr "tip"])])
      = .parsed v ∧ v.isFalsy = false ∧
      v.getField "similarityScore" = some (.jnum (80 : ℚ)) ∧
      v.getField "feedback" = some (.jarr [.jstr "tip"]) :=
  analyzeImages_ok_only_validated _ _ ⟨80, [.jstr "tip"]⟩ rfl

/-- C2: with pairwise-distinct catalog ids (an invariant of the catalog),
initialization produces exactly one record per catalog entry, keyed by the
entry id, carrying `defaultProgressAt index` — status `UNLOCKED` at index
0 and `LOCKED` elsewhere, streak 0, previousSimilarityScore 0. -/
theorem initializeDefaults_spec (catalog : List Challenge)
    (hnodup : (catalog.map Challenge.id).Nodup) :
    initializeDefaults catalog =
      catalog.enum.map (fun p => (p.2.id, defaultProgressAt p.1)) ∧
    (initializeDefaults catalog).length = catalog.length := by
  have hmain : initializeDefaults catalog =
      catalog.enum.map (fun p => (p.2.id, defaultProgressAt p.1)) := by
    unfold initializeDefaults
    exact initFold catalog 0 [] (by simp) hnodup
  refine ⟨hmain, ?_⟩
  rw [hmain, List.length_map, List.enum_length]

/-- C2, witness: a two-entry catalog initializes to one `UNLOCKED` and one
`LOCKED` record. -/
theorem initializeDefaults_spec_witness :
    (([⟨0,"a","d","u"⟩, ⟨1,"b","e","v"⟩] : List Challenge).map Challenge.id).Nodup ∧
    (initializeDefaults [⟨0,"a","d","u"⟩, ⟨1,"b","e","v"⟩] =
      ([⟨0,"a","d","u"⟩, ⟨1,"b","e","v"⟩] : List Challenge).enum.map
        (fun p => (p.2.id, defaultProgressAt p.1)) ∧
     (initializeDefaults [⟨0,"a","d","u"⟩, ⟨1,"b","e","v"⟩]).length
       = ([⟨0,"a","d","u"⟩, ⟨1,"b","e","v"⟩] : List Challenge).length) :=
  ⟨by decide, initializeDefaults_spec _ (by decide)⟩

/-- C3, counterexample: a transport failure whose `Error` message happens
to equal the schema-violation message surfaces exactly the same error as a
genuine malformed response (the spec scenario
`{similarityScore: "high", feedback: []}`), so the caller does not receive
three distinct error kinds — every failure collapses into one generic
wrapped `Error`. -/
theorem analyzeImages_kinds_indistinguishable :
    analyzeImages (.ok ()) (.fail (.errObj "Model returned malformed analysis data."))
      = analyzeImages (.ok ())
          (.parsed (.jobj [("similarityScore", .jstr "high"), ("feedback", .jarr [])])) ∧
    analyzeImages (.ok ()) (.fail (.errObj "Model returned malformed analysis data."))
      = .error "Analysis failed: Model returned malformed analysis data." :=
  ⟨rfl, rfl⟩

/-- C3, amended: every failure inside `analyzeImages` — stitch failure,
transport failure, parse failure, or schema violation — propagates to the
caller and none is retried; but all surface as a single generic error via
`wrapAnalysisError`: `Error` exceptions are wrapped with the contextual
prefix and non-`Error` exceptions are replaced by a fixed unknown-error
message, with no type-level distinction between kinds. -/
theorem analyzeImages_error_propagation (stitch : Except Thrown Unit)
    (fetch : FetchOutcome) :
    (∀ t, stitch = .error t →
      analyzeImages stitch fetch = .error (wrapAnalysisError t)) ∧
    (∀ t, stitch = .ok () → fetch = .fail t →
      analyzeImages stitch fetch = .error (wrapAnalysisError t)) ∧
    (∀ t, stitch = .ok () → fetch = .parseFail t →
      analyzeImages stitch fetch = .error (wrapAnalysisError t)) ∧
    (∀ v m, stitch = .ok () → fetch = .parsed v →
      validateAnalysis v = .error m →
      analyzeImages stitch fetch = .error (wrapAnalysisError (.errObj m))) := by
  refine ⟨?_, ?_, ?_, ?_⟩
  · rintro t rfl; rfl
  · rintro t rfl rfl; rfl
  · rintro t rfl rfl; rfl
  · rintro v m rfl rfl hval
    simp [analyzeImages, hval]

/-- C3, witness: a concrete stitch failure propagates with the contextual
prefix. -/
theorem analyzeImages_error_propagation_witness :
    analyzeImages (.error (.errObj "boom")) (.fail .nonErr)
      = .error "Analysis failed: boom" :=
  (analyzeImages_error_propagation _ _).1 _ rfl

/-- C4, counterexample: an execution of `stitchImages` that fetches a
`blob:` URL and then fails to load the target image throws without ever
calling `URL.revokeObjectURL` — the temporary resource is not released on
the failure path, refuting the guaranteed-release claim. -/
theorem stitchImages_leak_on_failure :
    (stitchImages "t.png" ⟨true, .ok "blob:abc", .error (), .ok ⟨2,2⟩⟩).1 = false ∧
    (stitchImages "t.png" ⟨true, .ok "blob:abc", .error (), .ok ⟨2,2⟩⟩).2
      = .error (.errObj "Failed to load target image: t.png") :=
  ⟨rfl, rfl⟩

/-- C4, amended: `URL.revokeObjectURL` is invoked exactly on the successful
executions in which the fetched URL has the `blob:` scheme (after drawing,
before encoding); on any failure — missing canvas context, fetch failure,
or either image failing to load — the resource is not released. -/
theorem stitchImages_revoke_iff (url : String) (env : StitchEnv) :
    (stitchImages url env).1 = true ↔
      env.ctxAvailable = true ∧
      (∃ b, env.blobFetch = .ok b ∧ jsStartsWith b "blob:" = true) ∧
      (∃ i1, env.targetLoad = .ok i1) ∧
      (∃ i2, env.generatedLoad = .ok i2) := by
  obtain ⟨ctx, bf, tl, gl⟩ := env
  cases ctx <;> cases bf <;> cases tl <;> cases gl <;>
    simp [stitchImages]

/-- C5, counterexample: a response with `similarityScore` 150 and four
feedback strings is returned verbatim, so the returned result violates
both the 0–100 range and the length-3 bound claimed for
`AnalysisResult`. -/
theorem analyzeImages_out_of_range :
    analyzeImages (.ok ())
      (.parsed (.jobj [("similarityScore", .jnum 150),
        ("feedback", .jarr [.jstr "a", .jstr "b", .jstr "c", .jstr "d"])]))
      = .ok ⟨150, [.jstr "a", .jstr "b", .jstr "c", .jstr "d"]⟩ ∧
    ¬ (150 : ℚ) ≤ 100 ∧
    3 < ([JsValue.jstr "a", .jstr "b", .jstr "c", .jstr "d"]).length :=
  ⟨rfl, by norm_num, by decide⟩

/-- C5, amended: `analyzeImages` passes the oracle's `similarityScore` and
`feedback` through verbatim for every number and every array — no 0–100
range constraint and no length bound is enforced on the returned
result. -/
theorem analyzeImages_passthrough (q : ℚ) (xs : List JsValue) :
    analyzeImages (.ok ())
      (.parsed (.jobj [("similarityScore", .jnum q), ("feedback", .jarr xs)]))
      = .ok ⟨q, xs⟩ := rfl

/-- C6: whenever the canvas context is available, the blob fetch succeeds
and both images decode, `stitchImages` produces a composite whose width is
the sum of the two widths, whose height is the max of the two heights,
with the target drawn at the origin and the generated image at
x = target width. -/
theorem stitchImages_layout (url : String) (env : StitchEnv) (b : String)
    (i1 i2 : ImageDims) (hctx : env.ctxAvailable = true)
    (hb : env.blobFetch = .ok b) (h1 : env.targetLoad = .ok i1)
    (h2 : env.generatedLoad = .ok i2) :
    (stitchImages url env).2 =
      .ok { canvasWidth := i1.width + i2.width,
            canvasHeight := max i1.height i2.height,
            targetPos := (0, 0), generatedPos := (i1.width, 0) } := by
  simp [stitchImages, hctx, hb, h1, h2]

/-- C6, witness: a 3×5 target and a 4×2 generated image produce a 7×5
canvas with the generated image drawn at x = 3. -/
theorem stitchImages_layout_witness :
    (stitchImages "t.png" ⟨true, .ok "blob:x", .ok ⟨3,5⟩, .ok ⟨4,2⟩⟩).2
      = .ok ⟨7, 5, (0, 0), (3, 0)⟩ :=
  stitchImages_layout "t.png" ⟨true, .ok "blob:x", .ok ⟨3,5⟩, .ok ⟨4,2⟩⟩
    "blob:x" ⟨3,5⟩ ⟨4,2⟩ rfl rfl rfl rfl

/-- C7: if durable storage has no saved value, or the saved value fails to
parse, loading yields the initialized defaults; the parse failure is
swallowed inside the effect (the function is total and returns a
`ProgressMap`, never an error). -/
theorem loadProgress_fallback (catalog : List Challenge) (saved : Option String)
    (parse : String → Except Thrown ProgressMap)
    (h : saved = none ∨ ∀ s, saved = some s → ∃ t, parse s = .error t) :
    loadProgress catalog saved parse = initializeDefaults catalog := by
  match saved with
  | none => rfl
  | some s =>
    rcases h with h | h
    · exact absurd h (by simp)
    · obtain ⟨t, ht⟩ := h s rfl
      by_cases hs : s = ""
      · simp [loadProgress, hs]
      · simp [loadProgress, hs, ht]

/-- C7, witness: both the absent cell and a corrupt cell load as the
defaults for a one-entry catalog. -/
theorem loadProgress_fallback_witness :
    loadProgress [⟨0,"a","d","u"⟩] none (fun _ => .ok [])
      = initializeDefaults [⟨0,"a","d","u"⟩] ∧
    loadProgress [⟨0,"a","d","u"⟩] (some "not json") (fun _ => .error .nonErr)
      = initializeDefaults [⟨0,"a","d","u"⟩] :=
  ⟨loadProgress_fallback _ _ _ (Or.inl rfl),
   loadProgress_fallback _ _ _ (Or.inr (fun _ _ => ⟨.nonErr, rfl⟩))⟩

/-- C8: the persistence effect writes to durable storage exactly when the
progress map has at least one entry — in particular, never with an empty
map. -/
theorem persistProgress_nonempty_guard (m : ProgressMap) :
    (persistProgress m).isSome = true ↔ m ≠ [] := by
  cases m <;> simp [persistProgress]

/-- C9, counterexample: a username stored with an empty-string password is
falsy under the JS guard `if (users[username])`, so signing the same
username up again does not throw — it succeeds and overwrites the stored
entry, refuting the claim for that input. -/
theorem signup_existing_empty_password_overwrites :
    recordGet ([("alice","")] : Users) "alice" = some "" ∧
    (signup ⟨[("alice","")], none, .absent⟩ "alice" "pw").2 = .ok ⟨"alice"⟩ ∧
    (signup ⟨[("alice","")], none, .absent⟩ "alice" "pw").1.users
      = [("alice","pw")] :=
  ⟨rfl, rfl, rfl⟩

/-- C9, amended: for every signup call with a username whose stored
password is nonempty (truthy), `signup` throws `Username already exists.`
and the whole state — including the stored users map — is returned
unchanged: no write occurs on the error path. -/
theorem signup_existing_truthy (st : AuthState) (u p stored : String)
    (hfound : recordGet st.users u = some stored) (hne : stored ≠ "") :
    signup st u p = (st, .error "Username already exists.") := by
  simp [signup, hfound, hne]

/-- C9, witness: signing up an already-registered username with a nonempty
stored password errors and leaves the state untouched. -/
theorem signup_existing_truthy_witness :
    recordGet ([("bob","x")] : Users) "bob" = some "x" ∧
    signup ⟨[("bob","x")], none, .absent⟩ "bob" "y"
      = (⟨[("bob","x")], none, .absent⟩, .error "Username already exists.") :=
  ⟨rfl, signup_existing_truthy _ "bob" "y" "x" rfl (by decide)⟩

/-- C10, counterexample: a user registered with the empty-string password
is rejected by `login` with `User not found` (JS truthiness of
`!users[username]`), so the login/getCurrentUser round trip fails for that
registered pair, refuting the claim as stated. -/
theorem login_registered_empty_password_fails :
    recordGet ([("bob","")] : Users) "bob" = some "" ∧
    (login ⟨[("bob","")], none, .absent⟩ "bob" "").2
      = .error "User not found. Please sign up first." ∧
    getCurrentUser (login ⟨[("bob","")], none, .absent⟩ "bob" "").1 = none :=
  ⟨rfl, rfl, rfl⟩

/-- C10, amended: for every username registered with a nonempty password,
`login` with that password succeeds and `getCurrentUser` on the resulting
state returns the `User` with that username. -/
theorem login_then_getCurrentUser (st : AuthState) (u p : String)
    (hreg : recordGet st.users u = some p) (hp : p ≠ "") :
    (login st u p).2 = .ok ⟨u⟩ ∧
    getCurrentUser (login st u p).1 = some ⟨u⟩ := by
  simp [login, hreg, hp, getCurrentUser, setCurrentUser]

/-- C10, witness: logging in a registered user round-trips through
`getCurrentUser`. -/
theorem login_then_getCurrentUser_witness :
    (login ⟨[("ann","pw")], none, .absent⟩ "ann" "pw").2 = .ok ⟨"ann"⟩ ∧
    getCurrentUser (login ⟨[("ann","pw")], none, .absent⟩ "ann" "pw").1
      = some ⟨"ann"⟩ :=
  login_then_getCurrentUser _ "ann" "pw" rfl (by decide)

end PEC
